import Mathlib

/-!
Verification of the AST-to-IR lowering pass in `src/pyscc/compiler.py`.

The lowering pass translates a typed Python AST fragment into terms of a
small untyped lambda calculus (the Pluto/UPLC term algebra).  The term
algebra itself and its evaluation semantics live outside the repository
(`pluto_ast` / `uplc_ast`), so they are modelled here from the spec; the
compiler functions (`extend_statemonad`, `emulate_tuple`, `emulate_nth`,
the `UPLCCompiler.visit_*` methods and the bootstrap environment) are
translated directly from `src/pyscc/compiler.py`.
-/

namespace Plyto

/-- Modelled from the spec: the target built-in primitives referenced by the
compiler (`uplc_ast.BuiltInFun` is external to the repository).  Only the
built-ins the compiler actually names are included. -/
inductive BuiltInFun where
  | AddInteger
  | SubtractInteger
  | MultiplyInteger
  | DivideInteger
  | RemainderInteger
  | EqualsInteger
  | LessThanInteger
  | EqualsByteString
  | AppendByteString
  | Trace
deriving DecidableEq, Repr

namespace plt

/-- Modelled from the spec: the target IR term algebra (`pluto_ast` is
external to the repository).  Per the spec it provides variables, lambda
abstraction over one-or-more parameter names, application of a function to
one-or-more arguments, let-binding, conditionals, literal constants,
built-in references, forced/deferred wrappers and an explicit failure
term.  Byte strings are represented by their decoded text, which is
faithful for the identifier encodings the compiler produces. -/
inductive AST where
  | Var (x : String)
  | Lambda (params : List String) (body : AST)
  | Apply (f : AST) (args : List AST)
  | Ite (c : AST) (t : AST) (e : AST)
  | BuiltIn (b : BuiltInFun)
  | Integer (i : Int)
  | ByteString (s : String)
  | Text (s : String)
  | Bool (b : Bool)
  | Unit
  | Error
  | Force (t : AST)
  | Delay (t : AST)
  | Let (bindings : List (String × AST)) (term : AST)

end plt

/-- Modelled from the spec: runtime values of the target calculus. -/
inductive Value where
  | closure (params : List String) (body : plt.AST) (env : List (String × Value))
  | builtinApp (b : BuiltInFun) (args : List Value)
  | int (i : Int)
  | bytestring (s : String)
  | text (s : String)
  | bool (b : Bool)
  | unit
  | delayed (t : plt.AST) (env : List (String × Value))

/-- Modelled from the spec: result of evaluating a target term.  `ok`
carries the value together with the ordered list of trace events emitted
during evaluation; `fail` is reduction to the explicit failure term;
`fuel_out` means the step budget was exhausted. -/
inductive Res where
  | ok (v : Value) (log : List Value)
  | fail
  | fuel_out

/-- Sequencing of evaluation results, concatenating trace logs. -/
def Res.bind (r : Res) (f : Value → Res) : Res :=
  match r with
  | .ok v l =>
    match f v with
    | .ok w l2 => .ok w (l ++ l2)
    | .fail => .fail
    | .fuel_out => .fuel_out
  | .fail => .fail
  | .fuel_out => .fuel_out

/-- Result of evaluating a list of target terms left to right. -/
inductive ResL where
  | ok (vs : List Value) (log : List Value)
  | fail
  | fuel_out

/-- Append one more evaluation result to a list result. -/
def ResL.push (r : ResL) (x : Res) : ResL :=
  match r, x with
  | .ok vs l, .ok v l2 => .ok (vs ++ [v]) (l ++ l2)
  | .ok _ _, .fail => .fail
  | .ok _ _, .fuel_out => .fuel_out
  | .fail, _ => .fail
  | .fuel_out, _ => .fuel_out

/-- Sequencing from a list result into a final result. -/
def ResL.bind (r : ResL) (f : List Value → Res) : Res :=
  match r with
  | .ok vs l =>
    match f vs with
    | .ok w l2 => .ok w (l ++ l2)
    | .fail => .fail
    | .fuel_out => .fuel_out
  | .fail => .fail
  | .fuel_out => .fuel_out

/-- Name lookup in a runtime environment (innermost binding first). -/
def lookupEnv : List (String × Value) → String → Option Value
  | [], _ => none
  | (k, v) :: rest, x => if k == x then some v else lookupEnv rest x

/-- Modelled from the spec: the meaning of each saturated built-in.
`Trace` emits a trace event carrying its first argument and returns its
second argument, per the target's trace primitive.  Division and remainder
fail on a zero divisor. -/
def evalBuiltin : BuiltInFun → Value → Value → Res
  | .AddInteger, .int a, .int b => .ok (.int (a + b)) []
  | .SubtractInteger, .int a, .int b => .ok (.int (a - b)) []
  | .MultiplyInteger, .int a, .int b => .ok (.int (a * b)) []
  | .DivideInteger, .int a, .int b =>
      if b == 0 then .fail else .ok (.int (Int.fdiv a b)) []
  | .RemainderInteger, .int a, .int b =>
      if b == 0 then .fail else .ok (.int (Int.emod a b)) []
  | .EqualsInteger, .int a, .int b => .ok (.bool (a == b)) []
  | .LessThanInteger, .int a, .int b => .ok (.bool (decide (a < b))) []
  | .EqualsByteString, .bytestring a, .bytestring b => .ok (.bool (a == b)) []
  | .AppendByteString, .bytestring a, .bytestring b => .ok (.bytestring (a ++ b)) []
  | .Trace, m, v => .ok v [m]
  | _, _, _ => .fail

/-- Modelled from the spec: applying an already-evaluated function value to
one argument value.  `recur` is the evaluator at the remaining fuel, used
to run a closure body once its last parameter is supplied.  All built-ins
of the model take two arguments. -/
def applyStep (recur : List (String × Value) → plt.AST → Res) (w v : Value) : Res :=
  match w with
  | .closure [p] b envc => recur ((p, v) :: envc) b
  | .closure (p :: ps) b envc => .ok (.closure ps b ((p, v) :: envc)) []
  | .closure [] _ _ => .fail
  | .builtinApp bf [] => .ok (.builtinApp bf [v]) []
  | .builtinApp bf [a] => evalBuiltin bf a v
  | _ => .fail

/-- Modelled from the spec: a deterministic fuel-indexed evaluator for the
target calculus.  Applications evaluate the function, then the arguments
left to right, then apply one argument at a time; the conditional
evaluates only the selected branch; `Let` binds sequentially; forcing a
deferred term evaluates it and forcing any other value returns it. -/
def eval : Nat → List (String × Value) → plt.AST → Res
  | 0, _, _ => .fuel_out
  | n + 1, env, t =>
    match t with
    | .Var x =>
        match lookupEnv env x with
        | some v => .ok v []
        | none => .fail
    | .Lambda ps b => .ok (.closure ps b env) []
    | .Apply f args =>
        Res.bind (eval n env f) fun vf =>
          ResL.bind (args.foldl (fun acc a => acc.push (eval n env a)) (.ok [] [])) fun vs =>
            vs.foldl (fun r v => Res.bind r fun w => applyStep (eval n) w v) (.ok vf [])
    | .Ite c tb eb =>
        Res.bind (eval n env c) fun vc =>
          match vc with
          | .bool true => eval n env tb
          | .bool false => eval n env eb
          | _ => .fail
    | .BuiltIn b => .ok (.builtinApp b []) []
    | .Integer i => .ok (.int i) []
    | .ByteString s => .ok (.bytestring s) []
    | .Text s => .ok (.text s) []
    | .Bool b => .ok (.bool b) []
    | .Unit => .ok .unit []
    | .Error => .fail
    | .Force t' =>
        Res.bind (eval n env t') fun v =>
          match v with
          | .delayed b envc => eval n envc b
          | v' => .ok v' []
    | .Delay t' => .ok (.delayed t' env) []
    | .Let [] t' => eval n env t'
    | .Let ((x, e) :: bs) t' =>
        Res.bind (eval n env e) fun v => eval n ((x, v) :: env) (.Let bs t')

/-! ## The compiler, translated from `src/pyscc/compiler.py` -/

/-- `STATEMONAD = "s"`: the variable name used for the threaded
environment. -/
def STATEMONAD : String := "s"

/-- The arithmetic operator tags keyed in `BinOpMap` in the source. -/
inductive BOp where
  | Add
  | Sub
  | Mult
  | Div
  | Mod
deriving DecidableEq, Repr

/-- The comparison operator tags keyed in `CmpMap` in the source. -/
inductive CmpOp where
  | Eq
  | Lt
deriving DecidableEq, Repr

/-- The inferred type tags of the external type-inference pass
(per the spec's closed lattice). -/
inductive PyType where
  | IntegerType
  | ByteStringType
  | TextType
  | BoolType
  | UnitType
  | TupleType (typs : List PyType)
  | ListType (typ : PyType)
deriving Repr

/-- Display name of an arithmetic operator, used in error messages. -/
def BOp.name : BOp → String
  | .Add => "Add"
  | .Sub => "Sub"
  | .Mult => "Mult"
  | .Div => "Div"
  | .Mod => "Mod"

/-- Display name of a comparison operator, used in error messages. -/
def CmpOp.name : CmpOp → String
  | .Eq => "Eq"
  | .Lt => "Lt"

/-- Display name of a type tag, used in error messages. -/
def PyType.name : PyType → String
  | .IntegerType => "IntegerType"
  | .ByteStringType => "ByteStringType"
  | .TextType => "TextType"
  | .BoolType => "BoolType"
  | .UnitType => "UnitType"
  | .TupleType _ => "TupleType"
  | .ListType _ => "ListType"

/-- `BinOpMap`: arithmetic operator dispatch.  Every operator key of the
source dictionary is present, so only the inner (per-type) lookup can
miss, exactly as in the source where all five operator classes have a
row. -/
def BinOpMap : BOp → PyType → Option BuiltInFun
  | .Add, .IntegerType => some .AddInteger
  | .Add, .ByteStringType => some .AppendByteString
  | .Sub, .IntegerType => some .SubtractInteger
  | .Mult, .IntegerType => some .MultiplyInteger
  | .Div, .IntegerType => some .DivideInteger
  | .Mod, .IntegerType => some .RemainderInteger
  | _, _ => none

/-- `CmpMap`: comparison operator dispatch.  Both operator keys of the
source dictionary are present. -/
def CmpMap : CmpOp → PyType → Option BuiltInFun
  | .Eq, .IntegerType => some .EqualsInteger
  | .Eq, .ByteStringType => some .EqualsByteString
  | .Eq, .BoolType => some .EqualsInteger
  | .Lt, .IntegerType => some .LessThanInteger
  | _, _ => none

/-- The constant kinds covered by `ConstantMap` in the source (`str`,
`bytes`, `int`, `bool`, `None`). -/
inductive PyConst where
  | str (s : String)
  | bytes (s : String)
  | int (i : Int)
  | bool (b : Bool)
  | none
deriving DecidableEq, Repr

/-- `ConstantMap` applied to a constant: the IR literal constructor for
each supported constant kind. -/
def ConstantMap : PyConst → plt.AST
  | .str s => .Text s
  | .bytes s => .ByteString s
  | .int i => .Integer i
  | .bool b => .Bool b
  | .none => .Unit

/-- The accumulation loop inside `extend_statemonad`: each `(name, value)`
pair wraps the accumulator in one more equality test, so the last listed
pair ends up outermost. -/
def extendChain : List (String × plt.AST) → plt.AST → plt.AST
  | [], acc => acc
  | (name, value) :: rest, acc =>
      extendChain rest
        (.Ite (.Apply (.BuiltIn .EqualsByteString) [.Var "x", .ByteString name])
          value acc)

/-- `extend_statemonad(names, values, old_statemonad)`: a new environment
function that tests the queried name against each bound name and falls
through to the old environment. -/
def extend_statemonad (names : List String) (values : List plt.AST)
    (old_statemonad : plt.AST) : plt.AST :=
  .Lambda ["x"]
    (extendChain (names.zip values) (.Apply old_statemonad [.Var "x"]))

/-- `emulate_tuple(*els)`: Church encoding of a tuple as a function over a
continuation. -/
def emulate_tuple (els : List plt.AST) : plt.AST :=
  .Lambda ["f"] (.Apply (.Var "f") els)

/-- `emulate_nth(t, n, size)`: project component `n` of an emulated tuple
of arity `size` by applying it to a continuation returning its `n`-th
parameter. -/
def emulate_nth (t : plt.AST) (n : Nat) (size : Nat) : plt.AST :=
  .Apply t [.Lambda ((List.range size).map fun i => "v" ++ toString i)
    (.Var ("v" ++ toString n))]

namespace PythonBuiltIn

/-- `PythonBuiltIn.print`: the bootstrap print built-in. -/
def print : plt.AST :=
  .Lambda [STATEMONAD]
    (.Lambda ["x"]
      (.Force
        (.Apply (.BuiltIn .Trace)
          [.Apply (.Var "x") [.Var STATEMONAD], .Var STATEMONAD])))

/-- `PythonBuiltIn.range`: the bootstrap range built-in. -/
def range : plt.AST :=
  .Lambda [STATEMONAD]
    (.Lambda ["limit"]
      (emulate_tuple
        [.Integer 0,
         .Lambda ["state"]
           (emulate_tuple
             [.Apply (.BuiltIn .LessThanInteger) [.Var "state", .Var "limit"],
              .Var "state",
              .Apply (.BuiltIn .AddInteger) [.Var "state", .Integer 1]])]))

end PythonBuiltIn

/-- `INITIAL_STATE`: the bootstrap environment, extending an
everything-fails base environment with the built-ins in enum order
(`print` first, then `range`). -/
def INITIAL_STATE : plt.AST :=
  extend_statemonad ["print", "range"]
    [PythonBuiltIn.print, PythonBuiltIn.range]
    (.Lambda ["x"] .Error)

/-- Name reference contexts of the source AST. -/
inductive Ctx where
  | Load
  | Store
deriving DecidableEq, Repr

mutual

/-- The typed expression nodes of the source AST that the lowering pass
handles; each carries the type tag assigned by the external inference
pass. -/
inductive texpr where
  | Constant (value : PyConst) (typ : PyType)
  | Name (id : String) (ctx : Ctx) (typ : PyType)
  | BinOp (left : texpr) (op : BOp) (right : texpr) (typ : PyType)
  | Compare (left : texpr) (ops : List CmpOp) (comparators : texprList) (typ : PyType)
  | Call (func : texpr) (args : texprList) (typ : PyType)

/-- Lists of typed expressions (part of the mutual family so that the
visitor is structurally recursive). -/
inductive texprList where
  | nil
  | cons (e : texpr) (rest : texprList)

/-- The typed statement nodes of the source AST that the lowering pass
handles. -/
inductive tstmt where
  | Assign (targets : texprList) (value : texpr)
  | Expr (value : texpr)
  | While (test : texpr) (body : tstmtList) (orelse : tstmtList)
  | Pass

/-- Lists of typed statements. -/
inductive tstmtList where
  | nil
  | cons (s : tstmt) (rest : tstmtList)

end

/-- The self-application fixed point built by `visit_While` for a loop
with compiled condition `cc` and compiled body `cs` (the quoted Pluto
comment in the source):
`λ s. let g = (λ s f. if cc s then f (cs s) f else s) in g s g`. -/
def whileFix (cc cs : plt.AST) : plt.AST :=
  .Lambda [STATEMONAD]
    (.Let
      [("g",
        plt.AST.Lambda ["s", "f"]
          (.Ite (.Apply cc [.Var "s"])
            (.Apply (.Var "f") [.Apply cs [.Var "s"], .Var "f"])
            (.Var "s")))]
      (.Apply (.Var "g") [.Var STATEMONAD, .Var "g"]))

/-- The inferred type attribute of a typed expression node. -/
def texpr.typ : texpr → PyType
  | .Constant _ t => t
  | .Name _ _ t => t
  | .BinOp _ _ _ t => t
  | .Compare _ _ _ t => t
  | .Call _ _ t => t

mutual

/-- `UPLCCompiler.visit` on expression nodes, dispatching to the
`visit_Constant`, `visit_Name`, `visit_BinOp`, `visit_Compare` and
`visit_Call` rules of the source.  Raised `NotImplementedError`s and
failed assertions become `Except.error` with the source's message. -/
def visit : texpr → Except String plt.AST
  | .Constant value _ => .ok (.Lambda [STATEMONAD] (ConstantMap value))
  | .Name id ctx _ =>
      match ctx with
      | .Load =>
          .ok (.Lambda [STATEMONAD] (.Apply (.Var STATEMONAD) [.ByteString id]))
      | .Store => .error "Context Store not supported"
  | .BinOp left op right typ =>
      match BinOpMap op typ with
      | Option.none =>
          .error ("Operation " ++ op.name ++ " is not implemented for type "
            ++ typ.name)
      | some b => do
          let cl ← visit left
          let cr ← visit right
          .ok (.Lambda [STATEMONAD]
            (.Apply (.BuiltIn b)
              [.Apply cl [.Var STATEMONAD], .Apply cr [.Var STATEMONAD]]))
  | .Compare left ops comparators _ =>
      match ops, comparators with
      | [o], .cons c .nil =>
          (match CmpMap o left.typ with
          | Option.none =>
              .error ("Operation " ++ o.name ++ " is not implemented for type "
                ++ left.typ.name)
          | some b => do
              let cl ← visit left
              let cc ← visit c
              .ok (.Lambda [STATEMONAD]
                (.Apply (.BuiltIn b)
                  [.Apply cl [.Var STATEMONAD], .Apply cc [.Var STATEMONAD]])))
      | _, _ => .error "Only single comparisons are supported"
  | .Call func args _ => do
      let cf ← visit func
      let cargs ← visitArgs args
      .ok (.Lambda [STATEMONAD]
        (.Apply cf (cargs.map fun a => plt.AST.Apply a [.Var STATEMONAD])))
termination_by e => sizeOf e

/-- Lowering of an argument list, left to right. -/
def visitArgs : texprList → Except String (List plt.AST)
  | .nil => .ok []
  | .cons e rest => do
      let c ← visit e
      let cs ← visitArgs rest
      .ok (c :: cs)
termination_by l => sizeOf l

/-- `UPLCCompiler.visit` on statement nodes (`visit_Assign`,
`visit_Expr`, `visit_While`, `visit_Pass`). -/
def visitStmt : tstmt → Except String plt.AST
  | .Assign targets value =>
      match targets with
      | .cons (texpr.Name id _ _) .nil => do
          let ce ← visit value
          .ok (.Lambda [STATEMONAD]
            (extend_statemonad [id] [.Apply ce [.Var STATEMONAD]]
              (.Var STATEMONAD)))
      | .cons _ .nil =>
          .error "Assignments to other things then names are not supported"
      | _ => .error "Assignments to more than one variable not supported yet"
  | .Expr value => do
      let ce ← visit value
      .ok (.Lambda [STATEMONAD]
        (.Apply (.Lambda ["_"] (.Var STATEMONAD)) [ce]))
  | .While test body orelse => do
      let cc ← visit test
      let sb ← seqGo body
      let cs := plt.AST.Lambda [STATEMONAD] sb
      match orelse with
      | .nil => .ok (whileFix cc cs)
      | .cons o os => do
          -- With an `else` clause the source lowers the loop followed by
          -- the `else` body as one sequence, which composes the loop term
          -- with the compiled `else` statements.
          let rest ← seqGo (.cons o os)
          .ok (.Lambda [STATEMONAD] (.Apply (whileFix cc cs) [rest]))
  | .Pass => .ok (.Lambda [STATEMONAD] (.Var STATEMONAD))
termination_by s => sizeOf s

/-- The accumulation loop of `visit_sequence`: iterating over the reversed
statement list and applying each compiled statement to the accumulator
yields, for statements `[s1, ..., sk]`, the nesting
`c1 (c2 (... (ck (Var s))))`. -/
def seqGo : tstmtList → Except String plt.AST
  | .nil => .ok (.Var STATEMONAD)
  | .cons s rest => do
      let c ← visitStmt s
      let r ← seqGo rest
      .ok (.Apply c [r])
termination_by l => sizeOf l

end

/-- `UPLCCompiler.visit_sequence`: lower a statement list to one function
over the incoming environment. -/
def visit_sequence (seq : tstmtList) : Except String plt.AST := do
  .ok (.Lambda [STATEMONAD] (← seqGo seq))

/-- `UPLCCompiler.visit_Module`: apply the lowered top-level sequence to
the bootstrap environment. -/
def visit_Module (body : tstmtList) : Except String plt.AST := do
  .ok (.Apply (← visit_sequence body) [INITIAL_STATE])

/-! ## Expected lowered shapes and concrete fixtures -/

/-- The term `visit_Name` emits for a read of `id`. -/
def nameShape (id : String) : plt.AST :=
  .Lambda [STATEMONAD] (.Apply (.Var STATEMONAD) [.ByteString id])

/-- The term `visit_BinOp` / `visit_Compare` emits for built-in `b` and
compiled operands `cl` and `cr`. -/
def binOpShape (b : BuiltInFun) (cl cr : plt.AST) : plt.AST :=
  .Lambda [STATEMONAD]
    (.Apply (.BuiltIn b)
      [.Apply cl [.Var STATEMONAD], .Apply cr [.Var STATEMONAD]])

/-- The integer row of `CmpMap`. -/
def cmpIntegerRow : CmpOp → BuiltInFun
  | .Eq => .EqualsInteger
  | .Lt => .LessThanInteger

/-- Following the spec's words: a two-statement sequence threads the
environment produced by the first statement into the second, wrapped in
one outer abstraction: `λ s. c2 (c1 s)`. -/
def specSeq2 (c1 c2 : plt.AST) : plt.AST :=
  .Lambda [STATEMONAD] (.Apply c2 [.Apply c1 [.Var STATEMONAD]])

/-- Following the spec's words: a one-argument call first applies the
lowered callee to the current environment and then applies that result to
the argument value: `λ s. (cf s) (ca s)`. -/
def specCall1 (cf ca : plt.AST) : plt.AST :=
  .Lambda [STATEMONAD]
    (.Apply (.Apply cf [.Var STATEMONAD]) [.Apply ca [.Var STATEMONAD]])

/-- Following the spec's words: an expression statement applies the
discard binding to the lowered expression already applied to the incoming
environment: `λ s. (λ _. s) (ce s)`. -/
def specExprStmt (ce : plt.AST) : plt.AST :=
  .Lambda [STATEMONAD]
    (.Apply (.Lambda ["_"] (.Var STATEMONAD)) [.Apply ce [.Var STATEMONAD]])

/-- Whether a runtime value is a deferred (delayed) term. -/
def Value.isDelayed : Value → Bool
  | .delayed _ _ => true
  | _ => false

/-- The everything-fails base environment term. -/
def failEnv : plt.AST := .Lambda ["x"] .Error

/-- Source fixture: the statement `x = 1`. -/
def stmtX1 : tstmt :=
  .Assign (.cons (.Name "x" .Store .IntegerType) .nil)
    (.Constant (.int 1) .IntegerType)

/-- Source fixture: the statement `x = 2`. -/
def stmtX2 : tstmt :=
  .Assign (.cons (.Name "x" .Store .IntegerType) .nil)
    (.Constant (.int 2) .IntegerType)

/-- The lowering of `x = 1`. -/
def stmtX1Lowered : plt.AST :=
  .Lambda [STATEMONAD]
    (extend_statemonad ["x"]
      [.Apply (.Lambda [STATEMONAD] (.Integer 1)) [.Var STATEMONAD]]
      (.Var STATEMONAD))

/-- The lowering of `x = 2`. -/
def stmtX2Lowered : plt.AST :=
  .Lambda [STATEMONAD]
    (extend_statemonad ["x"]
      [.Apply (.Lambda [STATEMONAD] (.Integer 2)) [.Var STATEMONAD]]
      (.Var STATEMONAD))

/-- Source fixture: the call expression `print(0)`. -/
def callPrint0 : texpr :=
  .Call (.Name "print" .Load .IntegerType)
    (.cons (.Constant (.int 0) .IntegerType) .nil) .IntegerType

/-- The lowering of `print(0)` as the compiler emits it: the compiled
callee is applied directly to the argument value. -/
def callPrint0Lowered : plt.AST :=
  .Lambda [STATEMONAD]
    (.Apply (nameShape "print")
      [.Apply (.Lambda [STATEMONAD] (.Integer 0)) [.Var STATEMONAD]])

/-- Source fixture: the expression statement reading the unbound name
`z`. -/
def exprStmtZ : tstmt := .Expr (.Name "z" .Load .IntegerType)

/-- The lowering of the expression statement `z` as the compiler emits
it: the discard binding receives the unapplied lowered expression. -/
def exprStmtZLowered : plt.AST :=
  .Lambda [STATEMONAD]
    (.Apply (.Lambda ["_"] (.Var STATEMONAD)) [nameShape "z"])

/-- The lowering of the loop condition `i < 3`. -/
def condLowered : plt.AST :=
  binOpShape .LessThanInteger (nameShape "i") (.Lambda [STATEMONAD] (.Integer 3))

/-- The lowering of the expression `i + 1`. -/
def incrLowered : plt.AST :=
  binOpShape .AddInteger (nameShape "i") (.Lambda [STATEMONAD] (.Integer 1))

/-- The lowering of the statement `i = i + 1`. -/
def assignLowered : plt.AST :=
  .Lambda [STATEMONAD]
    (extend_statemonad ["i"] [.Apply incrLowered [.Var STATEMONAD]]
      (.Var STATEMONAD))

/-- The lowering of the one-statement loop body `i = i + 1` as a
sequence. -/
def bodyLowered : plt.AST :=
  .Lambda [STATEMONAD] (.Apply assignLowered [.Var STATEMONAD])

/-- The lowering of `while i < 3: i = i + 1`. -/
def whileLowered : plt.AST := whileFix condLowered bodyLowered

/-- Source fixture: the loop `while i < 3: i = i + 1`. -/
def whileProg : tstmt :=
  .While (.Compare (.Name "i" .Load .IntegerType) [.Lt]
      (.cons (.Constant (.int 3) .IntegerType) .nil) .BoolType)
    (.cons (.Assign (.cons (.Name "i" .Store .IntegerType) .nil)
        (.BinOp (.Name "i" .Load .IntegerType) .Add
          (.Constant (.int 1) .IntegerType) .IntegerType)) .nil)
    .nil

/-- An environment term binding `i` to `0` over the failing base
environment. -/
def envI0 : plt.AST := extend_statemonad ["i"] [.Integer 0] failEnv

/-! ## Theorems -/

/-- C1: the claim states that lowering a two-statement sequence threads
the environment in source order, so that applying the lowered `[s1, s2]`
to `e` yields `lower(s2)(lower(s1)(e))`.  The code iterates the sequence
reversed while applying each compiled statement to the accumulator, which
produces `λ s. c1 (c2 s)`: the environment is threaded through the
*second* statement first.  Concretely, running the lowered `[x = 1; x = 2]`
leaves `x` bound to `1`, while the source-order composition stated by the
claim leaves `x` bound to `2`. -/
theorem visit_sequence_pair_composition :
    (∀ (s1 s2 : tstmt) (c1 c2 : plt.AST),
      visitStmt s1 = .ok c1 → visitStmt s2 = .ok c2 →
      visit_sequence (.cons s1 (.cons s2 .nil))
        = .ok (.Lambda [STATEMONAD] (.Apply c1 [.Apply c2 [.Var STATEMONAD]])))
    ∧ visit_sequence (.cons stmtX1 (.cons stmtX2 .nil))
        = .ok (.Lambda [STATEMONAD]
            (.Apply stmtX1Lowered [.Apply stmtX2Lowered [.Var STATEMONAD]]))
    ∧ eval 60 [] (.Apply (.Apply (.Lambda [STATEMONAD]
          (.Apply stmtX1Lowered [.Apply stmtX2Lowered [.Var STATEMONAD]]))
          [failEnv]) [.ByteString "x"]) = .ok (.int 1) []
    ∧ eval 60 [] (.Apply (.Apply (specSeq2 stmtX1Lowered stmtX2Lowered)
          [failEnv]) [.ByteString "x"]) = .ok (.int 2) [] := by
  refine ⟨fun s1 s2 c1 c2 h1 h2 => ?_, ?_, rfl, rfl⟩
  · simp [visit_sequence, seqGo, h1, h2, bind, Except.bind]
  · simp [visit_sequence, seqGo, visitStmt, visit, stmtX1, stmtX2, stmtX1Lowered,
      stmtX2Lowered, ConstantMap, bind, Except.bind]

/-- Witness for C1's theorem at the concrete statements `x = 1` and
`x = 2`. -/
theorem visit_sequence_pair_composition_witness :
    visit_sequence (.cons stmtX1 (.cons stmtX2 .nil))
      = .ok (.Lambda [STATEMONAD]
          (.Apply stmtX1Lowered [.Apply stmtX2Lowered [.Var STATEMONAD]])) := by
  refine visit_sequence_pair_composition.1 stmtX1 stmtX2 stmtX1Lowered stmtX2Lowered ?_ ?_
  · simp [visitStmt, visit, stmtX1, stmtX1Lowered, ConstantMap, bind, Except.bind]
  · simp [visitStmt, visit, stmtX2, stmtX2Lowered, ConstantMap, bind, Except.bind]

/-- C2: the claim states that a lowered call has the shape
`λ s. apply(lower(f) s, lower(a1) s, …)`, the callee being applied to the
environment before the argument values.  The code instead applies the
compiled callee directly to the argument values, never to the
environment, producing `λ s. lower(f) (lower(a1) s) …`.  Concretely the
lowered `print(0)` applied to the bootstrap environment fails (the
argument value `0` ends up where the environment was expected and is then
applied to a byte string), while the claim's shape reduces to a value. -/
theorem visit_Call_callee_not_applied_to_env :
    (∀ (f a : texpr) (tc : PyType) (cf ca : plt.AST),
      visit f = .ok cf → visit a = .ok ca →
      visit (.Call f (.cons a .nil) tc)
        = .ok (.Lambda [STATEMONAD] (.Apply cf [.Apply ca [.Var STATEMONAD]])))
    ∧ visit callPrint0 = .ok callPrint0Lowered
    ∧ eval 60 [] (.Apply callPrint0Lowered [INITIAL_STATE]) = .fail
    ∧ (∃ v, eval 60 [] (.Apply
        (specCall1 (nameShape "print") (.Lambda [STATEMONAD] (.Integer 0)))
        [INITIAL_STATE]) = .ok v []) := by
  refine ⟨fun f a tc cf ca hf ha => ?_, ?_, rfl, ⟨_, rfl⟩⟩
  · simp [visit, visitArgs, hf, ha, bind, Except.bind]
  · simp [visit, visitArgs, callPrint0, callPrint0Lowered, nameShape,
      ConstantMap, bind, Except.bind]

/-- Witness for C2's theorem at the concrete call `print(0)`. -/
theorem visit_Call_callee_not_applied_to_env_witness :
    visit callPrint0 = .ok callPrint0Lowered := by
  refine visit_Call_callee_not_applied_to_env.1 (.Name "print" .Load .IntegerType)
    (.Constant (.int 0) .IntegerType) .IntegerType (nameShape "print")
    (.Lambda [STATEMONAD] (.Integer 0)) ?_ ?_
  · simp [visit, nameShape]
  · simp [visit, ConstantMap]

/-- C3: the claim states an expression statement applies the discard
binding to `lower(expr)(e)`, so the inner expression is evaluated before
the environment is returned.  The code applies the discard binding to the
*unapplied* `lower(expr)` (a lambda, already a value), so the expression
is never evaluated.  Concretely, the lowered statement reading the
unbound name `z` returns the incoming environment untouched, while the
claim's shape reduces to the failure term. -/
theorem visit_Expr_discard_gets_unapplied_expression :
    (∀ (e : texpr) (ce : plt.AST), visit e = .ok ce →
      visitStmt (.Expr e)
        = .ok (.Lambda [STATEMONAD]
            (.Apply (.Lambda ["_"] (.Var STATEMONAD)) [ce])))
    ∧ visitStmt exprStmtZ = .ok exprStmtZLowered
    ∧ eval 60 [] (.Apply exprStmtZLowered [INITIAL_STATE]) = eval 60 [] INITIAL_STATE
    ∧ eval 60 [] (.Apply (specExprStmt (nameShape "z")) [INITIAL_STATE]) = .fail := by
  refine ⟨fun e ce h => ?_, ?_, rfl, rfl⟩
  · simp [visitStmt, h, bind, Except.bind]
  · simp [visitStmt, visit, exprStmtZ, exprStmtZLowered, nameShape, bind, Except.bind]

/-- Witness for C3's theorem at the concrete statement `z`. -/
theorem visit_Expr_discard_gets_unapplied_expression_witness :
    visitStmt exprStmtZ = .ok exprStmtZLowered := by
  refine visit_Expr_discard_gets_unapplied_expression.1 (.Name "z" .Load .IntegerType)
    (nameShape "z") ?_
  simp [visit, nameShape]

/-- C4 counterexample: the claim states that in
`extend(env, [n, n], [v1, v2])` a lookup of `n` yields `v1`.  At the
concrete instance `n = "n"`, `v1 = 1`, `v2 = 2` the lookup yields `2`. -/
theorem extend_duplicate_first_wins_refuted :
    eval 40 [] (.Apply (extend_statemonad ["n", "n"] [.Integer 1, .Integer 2]
      failEnv) [.ByteString "n"]) = .ok (.int 2) []
    ∧ Res.ok (.int 2) [] ≠ Res.ok (.int 1) [] :=
  ⟨rfl, by simp⟩

/-- C4 amended: when the same name is supplied more than once in a single
extension, the *last*-listed binding wins, because the accumulation loop
wraps each later pair's equality test outside the earlier ones. -/
theorem extend_duplicate_last_wins (n : String) (v1 v2 w : Value) :
    eval 20 [("a1", v1), ("a2", v2), ("old", w)]
      (.Apply (extend_statemonad [n, n] [.Var "a1", .Var "a2"] (.Var "old"))
        [.ByteString n]) = .ok v2 [] := by
  simp [eval, extend_statemonad, extendChain, lookupEnv, applyStep, evalBuiltin,
    Res.bind, ResL.bind, ResL.push, List.foldl]

/-- C5 counterexample: the claim states the bootstrap `print`, applied to
an environment and then to an argument, returns the traced argument value.
Applied to the environment value `7` and an argument evaluating to `42`,
it traces `42` but returns `7` (the environment), not `42`. -/
theorem print_returns_traced_value_refuted :
    eval 40 [] (.Apply PythonBuiltIn.print [.Integer 7, .Lambda ["e"] (.Integer 42)])
      = .ok (.int 7) [.int 42]
    ∧ Res.ok (.int 7) [.int 42] ≠ Res.ok (.int 42) [.int 42] :=
  ⟨rfl, by simp⟩

/-- C5 amended: the bootstrap `print`, applied to the current environment
and then to an argument, applies the argument to the environment (forcing
its evaluation), emits a trace event carrying the resulting value, and
returns the *environment* as its result (the trace built-in returns its
second operand, which `print` instantiates with the environment). -/
theorem print_traces_argument_and_returns_env (sv w : Value)
    (h : sv.isDelayed = false) :
    eval 20 [("s0", sv), ("a0", w)]
      (.Apply PythonBuiltIn.print [.Var "s0", .Lambda ["e"] (.Var "a0")])
      = .ok sv [w] := by
  cases sv <;> first | rfl | simp [Value.isDelayed] at h

/-- Witness for C5's amended theorem at environment value `7` and traced
value `42`. -/
theorem print_traces_argument_and_returns_env_witness :
    Value.isDelayed (.int 7) = false
    ∧ eval 20 [("s0", .int 7), ("a0", .int 42)]
        (.Apply PythonBuiltIn.print [.Var "s0", .Lambda ["e"] (.Var "a0")])
        = .ok (.int 7) [.int 42] :=
  ⟨rfl, print_traces_argument_and_returns_env (.int 7) (.int 42) rfl⟩

/-- C6: lowering `while i < 3: i = i + 1` and applying the result to an
environment binding `i` to `0` terminates and yields an environment in
which `i` is bound to `3`, identical to manually unrolling the body three
times; the condition holds before each of the three unrolled steps and
fails afterwards. -/
theorem while_i0_terminates_with_i3 :
    visitStmt whileProg = .ok whileLowered
    ∧ eval 100 [] (.Apply (.Apply whileLowered [envI0]) [.ByteString "i"])
        = .ok (.int 3) []
    ∧ eval 100 [] (.Apply (.Apply assignLowered
        [.Apply assignLowered [.Apply assignLowered [envI0]]]) [.ByteString "i"])
        = .ok (.int 3) []
    ∧ eval 100 [] (.Apply condLowered [envI0]) = .ok (.bool true) []
    ∧ eval 100 [] (.Apply condLowered [.Apply assignLowered [envI0]])
        = .ok (.bool true) []
    ∧ eval 100 [] (.Apply condLowered
        [.Apply assignLowered [.Apply assignLowered [envI0]]])
        = .ok (.bool true) []
    ∧ eval 100 [] (.Apply condLowered [.Apply assignLowered
        [.Apply assignLowered [.Apply assignLowered [envI0]]]])
        = .ok (.bool false) [] := by
  refine ⟨?_, rfl, rfl, rfl, rfl, rfl, rfl⟩
  simp [visitStmt, visit, seqGo, whileProg, whileLowered, whileFix, condLowered,
    bodyLowered, assignLowered, incrLowered, binOpShape, nameShape, ConstantMap,
    BinOpMap, CmpMap, texpr.typ, bind, Except.bind]

/-- C7: projecting index `i` of an emulated `N`-tuple built from arbitrary
values yields exactly the `i`-th value, for every valid index, for
`N ∈ {2, 3}`. -/
theorem tuple_projection_roundtrip (v0 v1 v2 : Value) :
    (eval 20 [("a0", v0), ("a1", v1)]
        (emulate_nth (emulate_tuple [.Var "a0", .Var "a1"]) 0 2) = .ok v0 []
    ∧ eval 20 [("a0", v0), ("a1", v1)]
        (emulate_nth (emulate_tuple [.Var "a0", .Var "a1"]) 1 2) = .ok v1 [])
    ∧ (eval 20 [("a0", v0), ("a1", v1), ("a2", v2)]
        (emulate_nth (emulate_tuple [.Var "a0", .Var "a1", .Var "a2"]) 0 3) = .ok v0 []
    ∧ eval 20 [("a0", v0), ("a1", v1), ("a2", v2)]
        (emulate_nth (emulate_tuple [.Var "a0", .Var "a1", .Var "a2"]) 1 3) = .ok v1 []
    ∧ eval 20 [("a0", v0), ("a1", v1), ("a2", v2)]
        (emulate_nth (emulate_tuple [.Var "a0", .Var "a1", .Var "a2"]) 2 3) = .ok v2 []) :=
  ⟨⟨rfl, rfl⟩, rfl, rfl, rfl⟩

/-- C8: a name that is neither `print` nor `range` (the only bootstrap
bindings) resolves through the bootstrap environment, and hence through
its lowered read, to the explicit failure term. -/
theorem unbound_name_resolves_to_failure (name : String) (typ : PyType)
    (h1 : name ≠ "print") (h2 : name ≠ "range") :
    eval 60 [] (.Apply INITIAL_STATE [.ByteString name]) = .fail
    ∧ visit (.Name name .Load typ) = .ok (nameShape name)
    ∧ eval 60 [] (.Apply (nameShape name) [INITIAL_STATE]) = .fail := by
  have e1 : (name == "print") = false := beq_eq_false_iff_ne.mpr h1
  have e2 : (name == "range") = false := beq_eq_false_iff_ne.mpr h2
  refine ⟨?_, by simp [visit, nameShape], ?_⟩
  · simp [eval, INITIAL_STATE, extend_statemonad, extendChain, lookupEnv,
      applyStep, evalBuiltin, Res.bind, ResL.bind, ResL.push, List.foldl, e1, e2]
  · simp [eval, INITIAL_STATE, extend_statemonad, extendChain, lookupEnv,
      applyStep, evalBuiltin, Res.bind, ResL.bind, ResL.push, List.foldl,
      nameShape, STATEMONAD, e1, e2]

/-- Witness for C8's theorem at the unbound name `z`. -/
theorem unbound_name_resolves_to_failure_witness :
    eval 60 [] (.Apply INITIAL_STATE [.ByteString "z"]) = .fail
    ∧ visit (.Name "z" .Load .IntegerType) = .ok (nameShape "z")
    ∧ eval 60 [] (.Apply (nameShape "z") [INITIAL_STATE]) = .fail :=
  unbound_name_resolves_to_failure "z" .IntegerType (by decide) (by decide)

/-- C9: for every operator/type pair present in `BinOpMap` or `CmpMap`,
lowering the corresponding `BinOp`/`Compare` succeeds and emits exactly
the built-in the table maps the pair to; for every pair absent from the
tables, lowering fails with the error naming the operator and the type,
before even visiting the operands. -/
theorem dispatch_tables_complete :
    (∀ (op : BOp) (typ : PyType) (b : BuiltInFun) (l r : texpr) (cl cr : plt.AST),
      BinOpMap op typ = some b → visit l = .ok cl → visit r = .ok cr →
      visit (.BinOp l op r typ) = .ok (binOpShape b cl cr))
    ∧ (∀ (op : BOp) (typ : PyType) (l r : texpr), BinOpMap op typ = none →
      visit (.BinOp l op r typ)
        = .error ("Operation " ++ op.name ++ " is not implemented for type "
            ++ typ.name))
    ∧ (∀ (o : CmpOp) (b : BuiltInFun) (l c : texpr) (tc : PyType) (cl cc : plt.AST),
      CmpMap o l.typ = some b → visit l = .ok cl → visit c = .ok cc →
      visit (.Compare l [o] (.cons c .nil) tc) = .ok (binOpShape b cl cc))
    ∧ (∀ (o : CmpOp) (l c : texpr) (tc : PyType), CmpMap o l.typ = none →
      visit (.Compare l [o] (.cons c .nil) tc)
        = .error ("Operation " ++ o.name ++ " is not implemented for type "
            ++ l.typ.name)) := by
  refine ⟨fun op typ b l r cl cr hm hl hr => ?_, fun op typ l r hm => ?_,
    fun o b l c tc cl cc hm hl hc => ?_, fun o l c tc hm => ?_⟩
  · simp [visit, hm, hl, hr, binOpShape, bind, Except.bind]
  · simp [visit, hm]
  · simp [visit, hm, hl, hc, binOpShape, bind, Except.bind]
  · simp [visit, hm]

/-- Witness for C9's theorem: `Add` at `Integer` maps to `AddInteger` and
`Lt` at `Integer` maps to `LessThanInteger`; `Sub` at `ByteString` and
`Lt` at `Bool` are absent and fail naming the operator and the type. -/
theorem dispatch_tables_complete_witness :
    visit (.BinOp (.Constant (.int 1) .IntegerType) .Add
        (.Constant (.int 2) .IntegerType) .IntegerType)
      = .ok (binOpShape .AddInteger (.Lambda [STATEMONAD] (.Integer 1))
          (.Lambda [STATEMONAD] (.Integer 2)))
    ∧ visit (.BinOp (.Constant (.int 1) .IntegerType) .Sub
        (.Constant (.int 2) .IntegerType) .ByteStringType)
      = .error "Operation Sub is not implemented for type ByteStringType"
    ∧ visit (.Compare (.Constant (.int 1) .IntegerType) [.Lt]
        (.cons (.Constant (.int 2) .IntegerType) .nil) .BoolType)
      = .ok (binOpShape .LessThanInteger (.Lambda [STATEMONAD] (.Integer 1))
          (.Lambda [STATEMONAD] (.Integer 2)))
    ∧ visit (.Compare (.Constant (.bool true) .BoolType) [.Lt]
        (.cons (.Constant (.int 2) .IntegerType) .nil) .BoolType)
      = .error "Operation Lt is not implemented for type BoolType" := by
  have h1 : visit (.Constant (.int 1) .IntegerType)
      = .ok (.Lambda [STATEMONAD] (.Integer 1)) := by simp [visit, ConstantMap]
  have h2 : visit (.Constant (.int 2) .IntegerType)
      = .ok (.Lambda [STATEMONAD] (.Integer 2)) := by simp [visit, ConstantMap]
  refine ⟨dispatch_tables_complete.1 .Add .IntegerType .AddInteger _ _ _ _ rfl h1 h2,
    dispatch_tables_complete.2.1 .Sub .ByteStringType _ _ rfl,
    dispatch_tables_complete.2.2.1 .Lt .LessThanInteger _ _ .BoolType _ _ rfl h1 h2,
    dispatch_tables_complete.2.2.2 .Lt (.Constant (.bool true) .BoolType) _ .BoolType rfl⟩

/-- C10: the built-in chosen for a `Compare` node depends only on the
operator and the left operand's inferred type; the comparator's type is
never consulted, so a `Compare` whose left operand is of `Integer` type
always emits the integer comparison built-in, whatever the comparator's
type. -/
theorem compare_dispatch_ignores_comparator_type :
    ∀ (o : CmpOp) (l c : texpr) (tc : PyType) (cl cc : plt.AST),
      l.typ = .IntegerType → visit l = .ok cl → visit c = .ok cc →
      visit (.Compare l [o] (.cons c .nil) tc)
        = .ok (binOpShape (cmpIntegerRow o) cl cc) := by
  intro o l c tc cl cc htyp hl hc
  cases o <;>
    simp [visit, htyp, CmpMap, cmpIntegerRow, hl, hc, binOpShape, bind, Except.bind]

/-- Witness for C10's theorem: comparing an `Integer`-typed left operand
with a `Text`-typed comparator still emits the integer built-in. -/
theorem compare_dispatch_ignores_comparator_type_witness :
    visit (.Compare (.Constant (.int 0) .IntegerType) [.Lt]
        (.cons (.Constant (.str "a") .TextType) .nil) .BoolType)
      = .ok (binOpShape .LessThanInteger (.Lambda [STATEMONAD] (.Integer 0))
          (.Lambda [STATEMONAD] (.Text "a"))) := by
  refine compare_dispatch_ignores_comparator_type .Lt _ _ .BoolType _ _ rfl ?_ ?_
  · simp [visit, ConstantMap]
  · simp [visit, ConstantMap]

end Plyto
